import Mathlib

/-!
Shallow embedding of the Open3D core registration engine
(`src/Core/Registration/Registration.cpp`, serial build: the OpenMP
pragmas compile away) together with proofs about its specification.

Real numbers model C++ `double`; the pseudo-random stream produced by
`std::rand` is modelled as an explicit sequence `ℕ → ℕ` indexed by call
order; external collaborators (`TransformationEstimation`,
`CorrespondenceChecker`) are function parameters, as they are abstract
interfaces in the source.
-/

open scoped Classical

noncomputable section

namespace three

/-- A 3-d point (`Eigen::Vector3d`). -/
structure V3 where
  x : ℝ
  y : ℝ
  z : ℝ

/-- The zero vector, used as the junk value for out-of-range indexing
(out-of-bounds indices are undefined behaviour in the source). -/
def origin : V3 := ⟨0, 0, 0⟩

/-- Componentwise difference of two points (`operator-`). -/
def V3.sub (a b : V3) : V3 := ⟨a.x - b.x, a.y - b.y, a.z - b.z⟩

/-- Squared Euclidean norm (`squaredNorm`). -/
def V3.sqNorm (a : V3) : ℝ := a.x * a.x + a.y * a.y + a.z * a.z

/-- `three::PointCloud`, reduced to its ordered point list `points_`. -/
structure PointCloud where
  points_ : List V3

/-- A homogeneous 4x4 transformation (`Eigen::Matrix4d`). -/
def Mat4 : Type := Matrix (Fin 4) (Fin 4) ℝ

instance : Mul Mat4 := inferInstanceAs (Mul (Matrix (Fin 4) (Fin 4) ℝ))

instance : One Mat4 := inferInstanceAs (One (Matrix (Fin 4) (Fin 4) ℝ))

/-- Application of a homogeneous transform to a point. -/
def transformPoint (M : Mat4) (p : V3) : V3 :=
  ⟨M 0 0 * p.x + M 0 1 * p.y + M 0 2 * p.z + M 0 3,
   M 1 0 * p.x + M 1 1 * p.y + M 1 2 * p.z + M 1 3,
   M 2 0 * p.x + M 2 1 * p.y + M 2 2 * p.z + M 2 3⟩

/-- `PointCloud::Transform`, applied to a local copy (the source code
always transforms a driver-owned clone). -/
def PointCloud.Transform (pc : PointCloud) (M : Mat4) : PointCloud :=
  ⟨pc.points_.map (transformPoint M)⟩

/-- `three::CorrespondenceSet`: ordered list of (source index, target index)
pairs (`Eigen::Vector2i`, indices here as naturals — negative indices are
out-of-bounds undefined behaviour in the source). -/
def CorrespondenceSet : Type := List (ℕ × ℕ)

/-- `three::RegistrationResult` with its four fields. -/
structure RegistrationResult where
  transformation_ : Mat4
  correspondence_set_ : CorrespondenceSet
  fitness_ : ℝ
  inlier_rmse_ : ℝ

/-- Modelled from the spec: the `RegistrationResult` constructors live in
`Registration.h`, which is not under `src/`; per the spec a default result
carries the identity transformation, an empty correspondence set, and zero
fitness and inlier RMSE. -/
def RegistrationResult.default : RegistrationResult := ⟨1, [], 0, 0⟩

/-- Modelled from the spec: `RegistrationResult(transformation)` — same as
the default result but carrying the given transformation. -/
def RegistrationResult.ofTransform (T : Mat4) : RegistrationResult := ⟨T, [], 0, 0⟩

/-- `three::Feature`, reduced to its list of descriptor columns
(`data_.col(i)` is the descriptor of point `i`). -/
structure Feature where
  data_ : List (List ℝ)

/-- `three::ICPConvergenceCriteria`. -/
structure ICPConvergenceCriteria where
  relative_fitness_ : ℝ
  relative_rmse_ : ℝ
  max_iteration_ : ℕ

/-- `three::RANSACConvergenceCriteria`. -/
structure RANSACConvergenceCriteria where
  max_iteration_ : ℕ
  max_validation_ : ℕ

/-- `three::CorrespondenceChecker`: the capability flag plus the check
predicate (an abstract interface in the source). -/
structure CorrespondenceChecker where
  require_pointcloud_alignment_ : Bool
  Check : PointCloud → PointCloud → CorrespondenceSet → Mat4 → Bool

/-- `three::TransformationEstimation::ComputeTransformation`, an abstract
single-method interface in the source, modelled as a function parameter. -/
def Estimation : Type := PointCloud → PointCloud → CorrespondenceSet → Mat4

/-- Nearest-element scan used to model the kd-tree queries: returns the
index (counting from `i`) and score of the element minimising `d`,
preferring the earlier element on ties. -/
def nnFrom (d : α → ℝ) (i : ℕ) : List α → Option (ℕ × ℝ)
  | [] => none
  | a :: rest =>
    match nnFrom d (i + 1) rest with
    | none => some (i, d a)
    | some (j, e) => if d a ≤ e then some (i, d a) else some (j, e)

/-- Modelled from the spec: `KDTreeFlann::SearchHybrid` with `k = 1`
(the kd-tree implementation is not under `src/`): returns the nearest
target index together with its squared distance when that squared distance
is at most `radius²`, and nothing otherwise. -/
def searchHybrid (target : List V3) (q : V3) (radius : ℝ) : Option (ℕ × ℝ) :=
  match nnFrom (fun p => V3.sqNorm (V3.sub q p)) 0 target with
  | none => none
  | some (j, dist) => if dist ≤ radius * radius then some (j, dist) else none

/-- Squared distance between two descriptor columns. -/
def featSqDist (a b : List ℝ) : ℝ :=
  ((a.zip b).map (fun pr => (pr.1 - pr.2) * (pr.1 - pr.2))).sum

/-- Modelled from the spec: `KDTreeFlann::SearchKNN` with `k = 1` over the
feature index (the kd-tree implementation is not under `src/`): returns
the nearest feature column index and squared feature distance, or nothing
when the target feature has no columns. -/
def searchKNN (cols : List (List ℝ)) (q : List ℝ) : Option (ℕ × ℝ) :=
  nnFrom (featSqDist q) 0 cols

/-- The per-source-point correspondence scan of
`GetRegistrationResultAndCorrespondences` (lines 62-72): for each source
index a hybrid query against the target; hits contribute the pair and the
squared distance. -/
def evalPairs (source target : PointCloud) (max_correspondence_distance : ℝ) :
    List ((ℕ × ℕ) × ℝ) :=
  (List.range source.points_.length).filterMap (fun i =>
    match searchHybrid target.points_ (source.points_.getD i origin)
        max_correspondence_distance with
    | none => none
    | some (j, dist) => some ((i, j), dist))

/-- `GetRegistrationResultAndCorrespondences` (lines 41-96), serial build.
The kd-tree argument is modelled by the target cloud it indexes. -/
def GetRegistrationResultAndCorrespondences (source target : PointCloud)
    (max_correspondence_distance : ℝ) (transformation : Mat4) :
    RegistrationResult :=
  if max_correspondence_distance ≤ 0 then
    RegistrationResult.ofTransform transformation
  else
    let pairs := evalPairs source target max_correspondence_distance
    let corres : CorrespondenceSet := pairs.map (fun pr => pr.1)
    let error2 : ℝ := (pairs.map (fun pr => pr.2)).sum
    if corres.isEmpty then
      { transformation_ := transformation, correspondence_set_ := corres,
        fitness_ := 0, inlier_rmse_ := 0 }
    else
      { transformation_ := transformation, correspondence_set_ := corres,
        fitness_ := (corres.length : ℝ) / (source.points_.length : ℝ),
        inlier_rmse_ := Real.sqrt (error2 / (corres.length : ℝ)) }

/-- The inlier-count / error accumulation loop of
`EvaluateRANSACBasedOnCorrespondence` (lines 104-114): `good` and `error2`. -/
def ransacGoodError (source target : PointCloud) (corres : CorrespondenceSet)
    (max_correspondence_distance : ℝ) : ℕ × ℝ :=
  corres.foldl (fun acc c =>
    let dis2 := V3.sqNorm (V3.sub (source.points_.getD c.1 origin)
      (target.points_.getD c.2 origin))
    if dis2 < max_correspondence_distance * max_correspondence_distance then
      (acc.1 + 1, acc.2 + dis2)
    else acc) (0, 0)

/-- `EvaluateRANSACBasedOnCorrespondence` (lines 98-123).  Note that the
returned result's `correspondence_set_` is never populated. -/
def EvaluateRANSACBasedOnCorrespondence (source target : PointCloud)
    (corres : CorrespondenceSet) (max_correspondence_distance : ℝ)
    (transformation : Mat4) : RegistrationResult :=
  let ge := ransacGoodError source target corres max_correspondence_distance
  if ge.1 = 0 then
    { transformation_ := transformation, correspondence_set_ := [],
      fitness_ := 0, inlier_rmse_ := 0 }
  else
    { transformation_ := transformation, correspondence_set_ := [],
      fitness_ := (ge.1 : ℝ) / (corres.length : ℝ),
      inlier_rmse_ := Real.sqrt (ge.2 / (ge.1 : ℝ)) }

/-- `EvaluateRegistration` (lines 127-139). -/
def EvaluateRegistration (source target : PointCloud)
    (max_correspondence_distance : ℝ) (transformation : Mat4) :
    RegistrationResult :=
  let pcd := if transformation = 1 then source
             else source.Transform transformation
  GetRegistrationResultAndCorrespondences pcd target
    max_correspondence_distance transformation

/-- The ICP break condition (lines 171-173): both the fitness delta and the
RMSE delta against the pre-step backup are strictly below their thresholds. -/
def ICPConverged (criteria : ICPConvergenceCriteria)
    (backup result : RegistrationResult) : Prop :=
  |backup.fitness_ - result.fitness_| < criteria.relative_fitness_ ∧
  |backup.inlier_rmse_ - result.inlier_rmse_| < criteria.relative_rmse_

/-- The iteration state of `RegistrationICP`: the cumulative transformation,
the transformed source clone `pcd`, and the last score. -/
structure ICPState where
  transformation : Mat4
  pcd : PointCloud
  result : RegistrationResult

/-- One refinement step of the ICP loop (lines 164-170): estimate an update,
compose it on the left, transform the clone, re-score. -/
def ICPStep (target : PointCloud) (max_correspondence_distance : ℝ)
    (estimation : Estimation) (st : ICPState) : ICPState :=
  let update := estimation st.pcd target st.result.correspondence_set_
  let transformation := update * st.transformation
  let pcd := st.pcd.Transform update
  let result := GetRegistrationResultAndCorrespondences pcd target
    max_correspondence_distance transformation
  ⟨transformation, pcd, result⟩

/-- The fueled ICP loop (lines 161-176), also returning the number of
refinement steps executed; the loop breaks right after a step when
`ICPConverged` holds between the pre-step backup and the new score. -/
def ICPLoop (target : PointCloud) (max_correspondence_distance : ℝ)
    (estimation : Estimation) (criteria : ICPConvergenceCriteria) :
    ℕ → ICPState → ICPState × ℕ
  | 0, st => (st, 0)
  | fuel + 1, st =>
    let st2 := ICPStep target max_correspondence_distance estimation st
    if ICPConverged criteria st.result st2.result then (st2, 1)
    else
      let r := ICPLoop target max_correspondence_distance estimation criteria
        fuel st2
      (r.1, r.2 + 1)

/-- `RegistrationICP` (lines 141-178). -/
def RegistrationICP (source target : PointCloud)
    (max_correspondence_distance : ℝ) (init : Mat4)
    (estimation : Estimation) (criteria : ICPConvergenceCriteria) :
    RegistrationResult :=
  if max_correspondence_distance ≤ 0 then RegistrationResult.ofTransform init
  else
    let transformation := init
    let pcd := if init = 1 then source else source.Transform init
    let result := GetRegistrationResultAndCorrespondences pcd target
      max_correspondence_distance transformation
    (ICPLoop target max_correspondence_distance estimation criteria
      criteria.max_iteration_ ⟨transformation, pcd, result⟩).1.result

/-- The sampling step of correspondence-RANSAC (lines 198-200): `ransac_n`
uniform draws with replacement from `corres`, consuming `rand` values
`off`, `off+1`, ... -/
def corrRansacSample (corres : CorrespondenceSet) (rand : ℕ → ℕ)
    (off : ℕ) (ransac_n : ℕ) : CorrespondenceSet :=
  (List.range ransac_n).map (fun j => corres.getD (rand (off + j) % corres.length) (0, 0))

/-- The best-of-N selection of correspondence-RANSAC (lines 207-211). -/
def updateBestCorr (best cand : RegistrationResult) : RegistrationResult :=
  if cand.fitness_ > best.fitness_ ∨
      (cand.fitness_ = best.fitness_ ∧ cand.inlier_rmse_ < best.inlier_rmse_) then
    cand
  else best

/-- One iteration body of correspondence-RANSAC (lines 198-211): sample
`ransac_n` pairs, fit, score restricted to `corres`, best-of-N. -/
def corrRansacBody (source target : PointCloud) (corres : CorrespondenceSet)
    (max_correspondence_distance : ℝ) (estimation : Estimation)
    (ransac_n : ℕ) (rand : ℕ → ℕ) (itr : ℕ) (result : RegistrationResult) :
    RegistrationResult :=
  let ransac_corres := corrRansacSample corres rand (itr * ransac_n) ransac_n
  let transformation := estimation source target ransac_corres
  let pcd := source.Transform transformation
  let this_result := EvaluateRANSACBasedOnCorrespondence pcd target corres
    max_correspondence_distance transformation
  updateBestCorr result this_result

/-- The doubly-bounded counting for-loop of correspondence-RANSAC
(lines 196-212): runs `body` while `itr < mi ∧ itr < mv`, also returning
the number of iterations executed. -/
def corrRansacLoop (body : ℕ → α → α) (mi mv itr : ℕ) (st : α) : α × ℕ :=
  if h : itr < mi ∧ itr < mv then
    let r := corrRansacLoop body mi mv (itr + 1) (body itr st)
    (r.1, r.2 + 1)
  else (st, 0)
termination_by mi - itr
decreasing_by
  exact Nat.sub_lt_sub_left h.1 (Nat.lt_succ_self itr)

/-- `RegistrationRANSACBasedOnCorrespondence` (lines 180-216). -/
def RegistrationRANSACBasedOnCorrespondence (source target : PointCloud)
    (corres : CorrespondenceSet) (max_correspondence_distance : ℝ)
    (estimation : Estimation) (ransac_n : ℕ)
    (criteria : RANSACConvergenceCriteria) (rand : ℕ → ℕ) :
    RegistrationResult :=
  if ransac_n < 3 ∨ corres.length < ransac_n ∨ max_correspondence_distance ≤ 0 then
    RegistrationResult.default
  else
    (corrRansacLoop
      (corrRansacBody source target corres max_correspondence_distance
        estimation ransac_n rand)
      criteria.max_iteration_ criteria.max_validation_ 0
      RegistrationResult.default).1

/-- The sampling step of feature-RANSAC (lines 263-274): sample `ransac_n`
source indices uniformly; each target index is the feature-kNN(1) answer,
or `0` when the query returns no neighbor (debug trace omitted). -/
def sampleFeatureCorres (source : PointCloud)
    (source_feature target_feature : Feature) (rand : ℕ → ℕ)
    (off : ℕ) (ransac_n : ℕ) : CorrespondenceSet :=
  (List.range ransac_n).map (fun j =>
    let s := rand (off + j) % source.points_.length
    match searchKNN target_feature.data_ (source_feature.data_.getD s []) with
    | none => (s, 0)
    | some (i, _) => (s, i))

/-- The best-of-N selection of the feature-RANSAC worker loop
(lines 302-306). -/
def updateBestFeatureLocal (best cand : RegistrationResult) : RegistrationResult :=
  if cand.fitness_ > best.fitness_ ∨
      (cand.fitness_ = best.fitness_ ∧ cand.inlier_rmse_ < best.inlier_rmse_) then
    cand
  else best

/-- The best-of-N reduction of worker-local bests in feature-RANSAC
(lines 323-327). -/
def updateBestFeatureReduce (best cand : RegistrationResult) : RegistrationResult :=
  if cand.fitness_ > best.fitness_ ∨
      (cand.fitness_ = best.fitness_ ∧ cand.inlier_rmse_ < best.inlier_rmse_) then
    cand
  else best

/-- The worker-local state of the feature-RANSAC loop. -/
structure FeatureRansacState where
  result_private : RegistrationResult
  total_validation : ℕ
  finished_validation : Bool

/-- One iteration body of feature-RANSAC (lines 257-318), serial build:
skip when the validation budget is exhausted; sample, run pre-fit checks
(the source passes a not-yet-computed transformation there, modelled by the
identity placeholder), fit, run post-fit checks, evaluate, best-of-N,
count the validation. -/
def featureRansacBody (source target : PointCloud)
    (source_feature target_feature : Feature)
    (max_correspondence_distance : ℝ) (estimation : Estimation)
    (ransac_n : ℕ) (checkers : List CorrespondenceChecker)
    (max_validation : ℕ) (rand : ℕ → ℕ) (itr : ℕ)
    (st : FeatureRansacState) : FeatureRansacState :=
  if st.finished_validation then st
  else
    let ransac_corres := sampleFeatureCorres source source_feature
      target_feature rand (itr * ransac_n) ransac_n
    let check1 := checkers.all (fun ch =>
      ch.require_pointcloud_alignment_ ||
        ch.Check source target ransac_corres 1)
    if check1 = false then st
    else
      let transformation := estimation source target ransac_corres
      let check2 := checkers.all (fun ch =>
        !ch.require_pointcloud_alignment_ ||
          ch.Check source target ransac_corres transformation)
      if check2 = false then st
      else
        let pcd := source.Transform transformation
        let this_result := GetRegistrationResultAndCorrespondences pcd target
          max_correspondence_distance transformation
        let result_private := updateBestFeatureLocal st.result_private this_result
        let total := st.total_validation + 1
        { result_private := result_private, total_validation := total,
          finished_validation := st.finished_validation || decide (max_validation ≤ total) }

/-- `RegistrationRANSACBasedOnFeatureMatching` (lines 218-335), serial
build: a single worker runs `max_iteration` scheduled iterations and its
local best is reduced against the initial default result. -/
def RegistrationRANSACBasedOnFeatureMatching (source target : PointCloud)
    (source_feature target_feature : Feature)
    (max_correspondence_distance : ℝ) (estimation : Estimation)
    (ransac_n : ℕ) (checkers : List CorrespondenceChecker)
    (criteria : RANSACConvergenceCriteria) (rand : ℕ → ℕ) :
    RegistrationResult :=
  if ransac_n < 3 ∨ max_correspondence_distance ≤ 0 then
    RegistrationResult.default
  else
    let final := (List.range criteria.max_iteration_).foldl
      (fun st itr => featureRansacBody source target source_feature
        target_feature max_correspondence_distance estimation ransac_n
        checkers criteria.max_validation_ rand itr st)
      ⟨RegistrationResult.default, 0, false⟩
    updateBestFeatureReduce RegistrationResult.default final.result_private

/-- A 6x6 matrix (`Eigen::Matrix6d`). -/
def Mat6 : Type := Matrix (Fin 6) (Fin 6) ℝ

instance : Add Mat6 := inferInstanceAs (Add (Matrix (Fin 6) (Fin 6) ℝ))

instance : One Mat6 := inferInstanceAs (One (Matrix (Fin 6) (Fin 6) ℝ))

/-- The first Jacobian row built at lines 359-362. -/
def g1 (p : V3) : Fin 6 → ℝ := ![1, 0, 0, 0, 2 * p.z, -(2 * p.y)]

/-- The second Jacobian row built at lines 364-367. -/
def g2 (p : V3) : Fin 6 → ℝ := ![0, 1, 0, -(2 * p.z), 0, 2 * p.x]

/-- The third Jacobian row built at lines 369-372. -/
def g3 (p : V3) : Fin 6 → ℝ := ![0, 0, 1, 2 * p.y, -(2 * p.x), 0]

/-- The per-target-point contribution `g1·g1ᵀ + g2·g2ᵀ + g3·g3ᵀ`
accumulated at lines 359-373. -/
def infoContrib (p : V3) : Mat6 :=
  Matrix.vecMulVec (g1 p) (g1 p) + Matrix.vecMulVec (g2 p) (g2 p) +
    Matrix.vecMulVec (g3 p) (g3 p)

/-- `GetInformationMatrixFromRegistrationResult` (lines 337-385), serial
build: note that BOTH the outer `GTG` (line 344) and the accumulator
`GTG_private` (line 349) are initialised to the identity, and the final
merge adds them (line 379). -/
def GetInformationMatrixFromRegistrationResult (source target : PointCloud)
    (result : RegistrationResult) : Mat6 :=
  let GTG : Mat6 := 1
  let GTG_private : Mat6 := result.correspondence_set_.foldl
    (fun A c => A + infoContrib (target.points_.getD c.2 origin)) 1
  GTG + GTG_private

/-- C1: the claim (and the spec) demand that the information matrix be
seeded with exactly one 6x6 identity, so an empty correspondence set must
yield the identity matrix; the code seeds the accumulator a second time
(line 349 in addition to line 344), so on an empty correspondence set it
returns `1 + 1`, which differs from the identity. -/
theorem C1_information_matrix_double_identity :
    GetInformationMatrixFromRegistrationResult ⟨[]⟩ ⟨[]⟩
      RegistrationResult.default = 1 + 1 ∧ (1 + 1 : Mat6) ≠ 1 := by
  constructor
  · rfl
  · intro h
    have h0 := congrFun (congrFun h 0) 0
    have hadd : (1 + 1 : Mat6) 0 0 = (1 : Mat6) 0 0 + (1 : Mat6) 0 0 :=
      Matrix.add_apply _ _ _ _
    rw [hadd, Matrix.one_apply_eq] at h0
    norm_num at h0

/-- C10: the returned information matrix does not depend on the source
cloud argument — only target points indexed by the correspondences are
read. -/
theorem C10_information_matrix_source_independent
    (source1 source2 target : PointCloud) (result : RegistrationResult) :
    GetInformationMatrixFromRegistrationResult source1 target result =
      GetInformationMatrixFromRegistrationResult source2 target result := rfl

/-- C5: in both RANSAC drivers the three comparison sites (correspondence
loop, feature worker loop, feature reduction) implement the same rule, and
that rule replaces the incumbent by the candidate exactly when the
candidate's fitness is strictly greater, or the fitnesses are equal and the
candidate's inlier RMSE is strictly smaller (or the two results already
coincide). -/
theorem C5_best_of_n_rule (best cand : RegistrationResult) :
    updateBestCorr best cand = updateBestFeatureLocal best cand ∧
    updateBestCorr best cand = updateBestFeatureReduce best cand ∧
    (updateBestCorr best cand = cand ∨ updateBestCorr best cand = best) ∧
    (updateBestCorr best cand = cand ↔
      (cand.fitness_ > best.fitness_ ∨
        (cand.fitness_ = best.fitness_ ∧ cand.inlier_rmse_ < best.inlier_rmse_) ∨
        cand = best)) := by
  refine ⟨rfl, rfl, ?_, ?_⟩
  · unfold updateBestCorr
    by_cases h : cand.fitness_ > best.fitness_ ∨
        (cand.fitness_ = best.fitness_ ∧ cand.inlier_rmse_ < best.inlier_rmse_)
    · rw [if_pos h]; exact Or.inl rfl
    · rw [if_neg h]; exact Or.inr rfl
  · unfold updateBestCorr
    by_cases h : cand.fitness_ > best.fitness_ ∨
        (cand.fitness_ = best.fitness_ ∧ cand.inlier_rmse_ < best.inlier_rmse_)
    · rw [if_pos h]
      exact ⟨fun _ => Or.imp_right Or.inl h, fun _ => rfl⟩
    · rw [if_neg h]
      constructor
      · intro hb
        exact Or.inr (Or.inr hb.symm)
      · intro hc
        rcases hc with hc | hc | hc
        · exact absurd (Or.inl hc) h
        · exact absurd (Or.inr hc) h
        · exact hc.symm

/-- C6: on invalid arguments every driver returns the default result
(identity transformation, empty correspondence set, zero fitness and
RMSE) without raising: correspondence-RANSAC when `ransac_n < 3` or
`|corres| < ransac_n` or `max_dist ≤ 0`, feature-RANSAC when
`ransac_n < 3` or `max_dist ≤ 0`, and ICP with `max_dist ≤ 0` returns the
default result carrying `init` as its transformation. -/
theorem C6_invalid_arguments_default
    (source target : PointCloud) (corres : CorrespondenceSet) (maxd : ℝ)
    (estimation : Estimation) (ransac_n : ℕ)
    (criteria : RANSACConvergenceCriteria)
    (source_feature target_feature : Feature)
    (checkers : List CorrespondenceChecker) (rand : ℕ → ℕ)
    (init : Mat4) (icp_criteria : ICPConvergenceCriteria) :
    (ransac_n < 3 ∨ corres.length < ransac_n ∨ maxd ≤ 0 →
      RegistrationRANSACBasedOnCorrespondence source target corres maxd
        estimation ransac_n criteria rand = RegistrationResult.default) ∧
    (ransac_n < 3 ∨ maxd ≤ 0 →
      RegistrationRANSACBasedOnFeatureMatching source target source_feature
        target_feature maxd estimation ransac_n checkers criteria rand =
        RegistrationResult.default) ∧
    (maxd ≤ 0 →
      RegistrationICP source target maxd init estimation icp_criteria =
        RegistrationResult.ofTransform init) ∧
    RegistrationResult.default =
      { transformation_ := 1, correspondence_set_ := [],
        fitness_ := 0, inlier_rmse_ := 0 } := by
  refine ⟨fun h => ?_, fun h => ?_, fun h => ?_, rfl⟩
  · unfold RegistrationRANSACBasedOnCorrespondence
    rw [if_pos h]
  · unfold RegistrationRANSACBasedOnFeatureMatching
    rw [if_pos h]
  · unfold RegistrationICP
    rw [if_pos h]

/-- Witness for C6 at concrete invalid arguments (`max_dist = 0`). -/
theorem C6_invalid_arguments_default_witness :
    RegistrationRANSACBasedOnCorrespondence ⟨[]⟩ ⟨[]⟩ [] 0
      (fun _ _ _ => 1) 3 ⟨1, 1⟩ (fun _ => 0) = RegistrationResult.default ∧
    RegistrationRANSACBasedOnFeatureMatching ⟨[]⟩ ⟨[]⟩ ⟨[]⟩ ⟨[]⟩ 0
      (fun _ _ _ => 1) 3 [] ⟨1, 1⟩ (fun _ => 0) = RegistrationResult.default ∧
    RegistrationICP ⟨[]⟩ ⟨[]⟩ 0 1 (fun _ _ _ => 1) ⟨0, 0, 1⟩ =
      RegistrationResult.ofTransform 1 := by
  have h := C6_invalid_arguments_default ⟨[]⟩ ⟨[]⟩ [] 0 (fun _ _ _ => 1) 3
    ⟨1, 1⟩ ⟨[]⟩ ⟨[]⟩ [] (fun _ => 0) 1 ⟨0, 0, 1⟩
  exact ⟨h.1 (Or.inr (Or.inr le_rfl)), h.2.1 (Or.inr le_rfl), h.2.2.1 le_rfl⟩

/-- The correspondence scan visits one source index per point, so it
produces at most `|source|` pairs. -/
theorem evalPairs_length_le (source target : PointCloud) (maxd : ℝ) :
    (evalPairs source target maxd).length ≤ source.points_.length := by
  have h := List.length_filterMap_le (fun i =>
    match searchHybrid target.points_ (source.points_.getD i origin) maxd with
    | none => none
    | some (j, dist) => some ((i, j), dist)) (List.range source.points_.length)
  simpa [evalPairs] using h

/-- A non-empty correspondence scan forces a non-empty source cloud. -/
theorem evalPairs_ne_nil_source_pos (source target : PointCloud) (maxd : ℝ)
    (h : evalPairs source target maxd ≠ []) : 0 < source.points_.length := by
  by_contra h0
  have hz : source.points_.length = 0 := Nat.eq_zero_of_not_pos h0
  apply h
  unfold evalPairs
  rw [hz]
  rfl

/-- C2 (amended): the correspondence-RANSAC scorer always returns an empty
`correspondence_set_` (even when its fitness is positive), so the three-way
equivalence of the original claim fails there and also fails for exact
matches (RMSE 0 with a non-empty set); what holds for the Evaluator is:
the correspondence set is empty iff fitness is zero, and an empty set
forces zero inlier RMSE. -/
theorem C2_amended_result_invariants :
    (∀ source target corres maxd T,
      (EvaluateRANSACBasedOnCorrespondence source target corres maxd
        T).correspondence_set_ = []) ∧
    (∀ source target maxd T,
      ((GetRegistrationResultAndCorrespondences source target maxd
          T).correspondence_set_ = [] ↔
        (GetRegistrationResultAndCorrespondences source target maxd
          T).fitness_ = 0) ∧
      ((GetRegistrationResultAndCorrespondences source target maxd
          T).correspondence_set_ = [] →
        (GetRegistrationResultAndCorrespondences source target maxd
          T).inlier_rmse_ = 0)) := by
  constructor
  · intro source target corres maxd T
    unfold EvaluateRANSACBasedOnCorrespondence
    by_cases h : (ransacGoodError source target corres maxd).1 = 0
    · rw [if_pos h]
    · rw [if_neg h]
  · intro source target maxd T
    by_cases hm : maxd ≤ 0
    · unfold GetRegistrationResultAndCorrespondences
      rw [if_pos hm]
      exact ⟨⟨fun _ => rfl, fun _ => rfl⟩, fun _ => rfl⟩
    · unfold GetRegistrationResultAndCorrespondences
      rw [if_neg hm]
      by_cases he : ((evalPairs source target maxd).map (fun pr => pr.1)).isEmpty
      · rw [if_pos he]
        exact ⟨⟨fun _ => rfl, fun _ => List.isEmpty_iff.mp he⟩, fun _ => rfl⟩
      · rw [if_neg he]
        have hc : (evalPairs source target maxd).map (fun pr => pr.1) ≠ [] := by
          intro h
          exact he (by rw [h]; rfl)
        have hp : evalPairs source target maxd ≠ [] := by
          intro h
          exact hc (by rw [h]; rfl)
        have hN : 0 < source.points_.length :=
          evalPairs_ne_nil_source_pos source target maxd hp
        have hn : ((evalPairs source target maxd).map
            (fun pr => pr.1)).length ≠ 0 := by
          intro h
          exact hc (List.eq_nil_of_length_eq_zero h)
        have hfit : (((evalPairs source target maxd).map
              (fun pr => pr.1)).length : ℝ) /
            (source.points_.length : ℝ) ≠ 0 :=
          div_ne_zero (Nat.cast_ne_zero.mpr hn)
            (Nat.cast_ne_zero.mpr (Nat.pos_iff_ne_zero.mp hN))
        exact ⟨⟨fun h => absurd h hc, fun h => absurd h hfit⟩,
          fun h => absurd h hc⟩

/-- Witness for C2 (amended) at a concrete input. -/
theorem C2_amended_result_invariants_witness :
    (EvaluateRANSACBasedOnCorrespondence ⟨[]⟩ ⟨[]⟩ [] 1
      1).correspondence_set_ = [] :=
  C2_amended_result_invariants.1 ⟨[]⟩ ⟨[]⟩ [] 1 1

/-- Counterexample to C2 as stated: on a source and target that are the
same single point, with the identity transformation and the singleton
correspondence, the correspondence-RANSAC scorer returns an empty
correspondence set, fitness 1 and inlier RMSE 0, so neither
"set empty ⇔ fitness = 0" nor "inlier_rmse = 0 ⇔ set empty" holds. -/
theorem C2_counterexample_exact_match :
    (EvaluateRANSACBasedOnCorrespondence ⟨[origin]⟩ ⟨[origin]⟩ [(0, 0)] 1
      1).correspondence_set_ = [] ∧
    (EvaluateRANSACBasedOnCorrespondence ⟨[origin]⟩ ⟨[origin]⟩ [(0, 0)] 1
      1).fitness_ = 1 ∧
    (EvaluateRANSACBasedOnCorrespondence ⟨[origin]⟩ ⟨[origin]⟩ [(0, 0)] 1
      1).inlier_rmse_ = 0 ∧
    ¬(((EvaluateRANSACBasedOnCorrespondence ⟨[origin]⟩ ⟨[origin]⟩ [(0, 0)] 1
        1).correspondence_set_ = [] ↔
      (EvaluateRANSACBasedOnCorrespondence ⟨[origin]⟩ ⟨[origin]⟩ [(0, 0)] 1
        1).fitness_ = 0) ∧
      ((EvaluateRANSACBasedOnCorrespondence ⟨[origin]⟩ ⟨[origin]⟩ [(0, 0)] 1
        1).fitness_ = 0 ↔
      (EvaluateRANSACBasedOnCorrespondence ⟨[origin]⟩ ⟨[origin]⟩ [(0, 0)] 1
        1).inlier_rmse_ = 0)) := by
  have hge : ransacGoodError ⟨[origin]⟩ ⟨[origin]⟩ [(0, 0)] 1 = (1, 0) := by
    unfold ransacGoodError
    simp only [List.foldl_cons, List.foldl_nil, List.getD, origin, V3.sub,
      V3.sqNorm]
    norm_num
  have hr : EvaluateRANSACBasedOnCorrespondence ⟨[origin]⟩ ⟨[origin]⟩
      [(0, 0)] 1 1 =
      { transformation_ := 1, correspondence_set_ := [],
        fitness_ := 1, inlier_rmse_ := 0 } := by
    unfold EvaluateRANSACBasedOnCorrespondence
    rw [hge]
    norm_num
  rw [hr]
  refine ⟨rfl, rfl, rfl, fun h => ?_⟩
  have h1 : (1 : ℝ) = 0 := h.1.mp rfl
  norm_num at h1

/-- The nearest-element scan reports an in-range index together with the
score of the element at that index. -/
theorem nnFrom_eq_some (d : V3 → ℝ) :
    ∀ (l : List V3) (i j : ℕ) (e : ℝ), nnFrom d i l = some (j, e) →
      i ≤ j ∧ j - i < l.length ∧ e = d (l.getD (j - i) origin) := by
  intro l
  induction l with
  | nil =>
    intro i j e h
    exact absurd h (by simp [nnFrom])
  | cons a rest ih =>
    intro i j e h
    unfold nnFrom at h
    split at h
    · obtain ⟨hj, he⟩ := Prod.mk.injEq .. ▸ Option.some.inj h
      subst hj
      subst he
      simp
    · rename_i j' e' hnn
      obtain ⟨hi', hlt', he'⟩ := ih (i + 1) j' e' hnn
      split at h
      · obtain ⟨hj, he⟩ := Prod.mk.injEq .. ▸ Option.some.inj h
        subst hj
        subst he
        simp
      · obtain ⟨hj, he⟩ := Prod.mk.injEq .. ▸ Option.some.inj h
        subst hj
        subst he
        refine ⟨by omega, by simp; omega, ?_⟩
        have hstep : j' - i = (j' - (i + 1)) + 1 := by omega
        rw [hstep, List.getD_cons_succ]
        exact he'

/-- A successful hybrid query returns an in-range target index, the squared
distance to that target point, and that squared distance is at most
`radius²`. -/
theorem searchHybrid_spec (tgt : List V3) (q : V3) (radius : ℝ) (j : ℕ)
    (e : ℝ) (h : searchHybrid tgt q radius = some (j, e)) :
    j < tgt.length ∧ e = V3.sqNorm (V3.sub q (tgt.getD j origin)) ∧
      e ≤ radius * radius := by
  unfold searchHybrid at h
  split at h
  · exact absurd h (by simp)
  · rename_i j' e' hnn
    split at h
    · rename_i hle
      obtain ⟨hj, he⟩ := Prod.mk.injEq .. ▸ Option.some.inj h
      subst hj
      subst he
      obtain ⟨_, hlt, heq⟩ := nnFrom_eq_some _ tgt 0 _ _ hnn
      simp only [Nat.sub_zero] at hlt heq
      exact ⟨by simpa using hlt, heq, hle⟩
    · exact absurd h (by simp)

/-- Each recorded pair of the correspondence scan carries the squared
distance between the indexed source and target points. -/
theorem evalPairs_snd (source target : PointCloud) (maxd : ℝ) :
    ∀ pr ∈ evalPairs source target maxd,
      pr.2 = V3.sqNorm (V3.sub (source.points_.getD pr.1.1 origin)
        (target.points_.getD pr.1.2 origin)) := by
  intro pr hpr
  unfold evalPairs at hpr
  obtain ⟨i, _, hf⟩ := List.mem_filterMap.mp hpr
  cases hs : searchHybrid target.points_ (source.points_.getD i origin)
      maxd with
  | none =>
    rw [hs] at hf
    exact absurd hf (by simp)
  | some jd =>
    rw [hs] at hf
    obtain ⟨j, dist⟩ := jd
    have hpr' : pr = ((i, j), dist) := (Option.some.inj hf).symm
    subst hpr'
    obtain ⟨_, heq, _⟩ := searchHybrid_spec target.points_
      (source.points_.getD i origin) maxd j dist hs
    exact heq

/-- Characterization of the Evaluator for a positive distance threshold. -/
theorem GetRegistrationResultAndCorrespondences_eq_of_pos
    (source target : PointCloud) (maxd : ℝ) (T : Mat4) (hmax : 0 < maxd) :
    GetRegistrationResultAndCorrespondences source target maxd T =
      if ((evalPairs source target maxd).map (fun pr => pr.1)).isEmpty then
        { transformation_ := T,
          correspondence_set_ :=
            (evalPairs source target maxd).map (fun pr => pr.1),
          fitness_ := 0, inlier_rmse_ := 0 }
      else
        { transformation_ := T,
          correspondence_set_ :=
            (evalPairs source target maxd).map (fun pr => pr.1),
          fitness_ :=
            (((evalPairs source target maxd).map (fun pr => pr.1)).length : ℝ) /
              (source.points_.length : ℝ),
          inlier_rmse_ := Real.sqrt
            ((((evalPairs source target maxd).map (fun pr => pr.2)).sum) /
              (((evalPairs source target maxd).map
                (fun pr => pr.1)).length : ℝ)) } := by
  unfold GetRegistrationResultAndCorrespondences
  rw [if_neg (not_le.mpr hmax)]

/-- C7: on a non-empty source with a positive distance threshold the
Evaluator's fitness is exactly the correspondence count over the source
size, its inlier RMSE is the square root of the mean squared inlier
distance when the set is non-empty, and consequently the fitness lies in
`[0, 1]` and the RMSE is non-negative. -/
theorem C7_evaluator_fitness_rmse (source target : PointCloud) (maxd : ℝ)
    (T : Mat4) (hmax : 0 < maxd) (hsrc : source.points_ ≠ []) :
    (GetRegistrationResultAndCorrespondences source target maxd T).fitness_ =
      ((GetRegistrationResultAndCorrespondences source target maxd
          T).correspondence_set_.length : ℝ) /
        (source.points_.length : ℝ) ∧
    ((GetRegistrationResultAndCorrespondences source target maxd
        T).correspondence_set_ ≠ [] →
      (GetRegistrationResultAndCorrespondences source target maxd
          T).inlier_rmse_ =
        Real.sqrt
          ((((GetRegistrationResultAndCorrespondences source target maxd
              T).correspondence_set_.map (fun c =>
                V3.sqNorm (V3.sub (source.points_.getD c.1 origin)
                  (target.points_.getD c.2 origin)))).sum) /
            ((GetRegistrationResultAndCorrespondences source target maxd
              T).correspondence_set_.length : ℝ))) ∧
    0 ≤ (GetRegistrationResultAndCorrespondences source target maxd
      T).fitness_ ∧
    (GetRegistrationResultAndCorrespondences source target maxd
      T).fitness_ ≤ 1 ∧
    0 ≤ (GetRegistrationResultAndCorrespondences source target maxd
      T).inlier_rmse_ := by
  have hq := GetRegistrationResultAndCorrespondences_eq_of_pos source target
    maxd T hmax
  by_cases he : ((evalPairs source target maxd).map (fun pr => pr.1)).isEmpty
  · rw [if_pos he] at hq
    rw [hq]
    have hnil := List.isEmpty_iff.mp he
    refine ⟨?_, fun hne => absurd hnil hne, le_refl 0, by norm_num, le_refl 0⟩
    rw [hnil]
    simp
  · rw [if_neg he] at hq
    rw [hq]
    have hN : 0 < source.points_.length := List.length_pos.mpr hsrc
    have hlen : ((evalPairs source target maxd).map
        (fun pr => pr.1)).length ≤ source.points_.length := by
      rw [List.length_map]
      exact evalPairs_length_le source target maxd
    refine ⟨rfl, fun _ => ?_, ?_, ?_, Real.sqrt_nonneg _⟩
    · have h1 : (evalPairs source target maxd).map (fun pr => pr.2) =
          (evalPairs source target maxd).map (fun pr =>
            V3.sqNorm (V3.sub (source.points_.getD pr.1.1 origin)
              (target.points_.getD pr.1.2 origin))) :=
        List.map_congr_left (evalPairs_snd source target maxd)
      have h2 : (evalPairs source target maxd).map (fun pr =>
            V3.sqNorm (V3.sub (source.points_.getD pr.1.1 origin)
              (target.points_.getD pr.1.2 origin))) =
          ((evalPairs source target maxd).map (fun pr => pr.1)).map (fun c =>
            V3.sqNorm (V3.sub (source.points_.getD c.1 origin)
              (target.points_.getD c.2 origin))) := by
        rw [List.map_map]
        rfl
      show Real.sqrt _ = Real.sqrt _
      rw [h1, h2]
    · exact div_nonneg (Nat.cast_nonneg _) (Nat.cast_nonneg _)
    · exact div_le_one_of_le₀ (Nat.cast_le.mpr hlen) (Nat.cast_nonneg _)

/-- Witness for C7 at a concrete one-point self-alignment. -/
theorem C7_evaluator_fitness_rmse_witness :
    0 ≤ (GetRegistrationResultAndCorrespondences ⟨[origin]⟩ ⟨[origin]⟩ 1
      1).fitness_ ∧
    (GetRegistrationResultAndCorrespondences ⟨[origin]⟩ ⟨[origin]⟩ 1
      1).fitness_ ≤ 1 := by
  have h := C7_evaluator_fitness_rmse ⟨[origin]⟩ ⟨[origin]⟩ 1 1 (by norm_num)
    (by simp)
  exact ⟨h.2.2.1, h.2.2.2.1⟩

/-- The inlier counter of the correspondence-RANSAC scorer counts exactly
the pairs whose squared distance is strictly below the threshold. -/
theorem ransacGoodError_foldl_fst (source target : PointCloud) (maxd : ℝ) :
    ∀ (corres : List (ℕ × ℕ)) (acc : ℕ × ℝ),
      (corres.foldl (fun acc c =>
        let dis2 := V3.sqNorm (V3.sub (source.points_.getD c.1 origin)
          (target.points_.getD c.2 origin))
        if dis2 < maxd * maxd then (acc.1 + 1, acc.2 + dis2)
        else acc) acc).1 =
      acc.1 + (corres.filter (fun c => decide (V3.sqNorm (V3.sub
        (source.points_.getD c.1 origin)
        (target.points_.getD c.2 origin)) < maxd * maxd))).length := by
  intro corres
  induction corres with
  | nil =>
    intro acc
    simp
  | cons c cs ih =>
    intro acc
    simp only [List.foldl_cons, List.filter_cons]
    by_cases hc : V3.sqNorm (V3.sub (source.points_.getD c.1 origin)
        (target.points_.getD c.2 origin)) < maxd * maxd
    · rw [if_pos hc, ih, if_pos (decide_eq_true hc), List.length_cons]
      omega
    · rw [if_neg hc, ih, if_neg (by simpa using hc)]

/-- C9: the correspondence-restricted scorer counts a pair as an inlier iff
its squared distance is STRICTLY below `max_dist²` — a pair at exactly
`max_dist` is excluded — whereas the Evaluator's hybrid search still
returns a neighbor at squared distance exactly `max_dist²`. -/
theorem C9_strict_vs_inclusive_threshold :
    (∀ (source target : PointCloud) (corres : CorrespondenceSet) (maxd : ℝ),
      (ransacGoodError source target corres maxd).1 =
        (corres.filter (fun c => decide (V3.sqNorm (V3.sub
          (source.points_.getD c.1 origin)
          (target.points_.getD c.2 origin)) < maxd * maxd))).length) ∧
    (∀ (p q : V3) (maxd : ℝ), V3.sqNorm (V3.sub p q) = maxd * maxd →
      (ransacGoodError ⟨[p]⟩ ⟨[q]⟩ [(0, 0)] maxd).1 = 0 ∧
      searchHybrid [q] p maxd = some (0, maxd * maxd)) := by
  have hcount : ∀ (source target : PointCloud) (corres : CorrespondenceSet)
      (maxd : ℝ),
      (ransacGoodError source target corres maxd).1 =
        (corres.filter (fun c => decide (V3.sqNorm (V3.sub
          (source.points_.getD c.1 origin)
          (target.points_.getD c.2 origin)) < maxd * maxd))).length := by
    intro source target corres maxd
    unfold ransacGoodError
    rw [ransacGoodError_foldl_fst source target maxd corres (0, 0)]
    simp
  refine ⟨hcount, fun p q maxd h => ⟨?_, ?_⟩⟩
  · have hnotlt : ¬ V3.sqNorm (V3.sub p q) < maxd * maxd := by
      rw [h]
      exact lt_irrefl _
    rw [hcount]
    simp only [List.filter_cons, List.filter_nil]
    rw [if_neg (by simpa using hnotlt)]
    rfl
  · simp [searchHybrid, nnFrom, h]

/-- Witness for C9 at a concrete pair lying exactly at the threshold. -/
theorem C9_strict_vs_inclusive_threshold_witness :
    (ransacGoodError ⟨[origin]⟩ ⟨[⟨1, 0, 0⟩]⟩ [(0, 0)] 1).1 = 0 ∧
    searchHybrid [⟨1, 0, 0⟩] origin 1 = some (0, 1 * 1) :=
  C9_strict_vs_inclusive_threshold.2 origin ⟨1, 0, 0⟩ 1
    (by norm_num [V3.sub, V3.sqNorm, origin])

/-- C8: in feature-RANSAC's sampling step, the `j`-th sampled pair carries
the sampled source index, and its target index is `0` when the
feature-kNN(1) query returns no neighbor, and the returned neighbor's
index otherwise. -/
theorem C8_feature_knn_miss (source : PointCloud)
    (source_feature target_feature : Feature) (rand : ℕ → ℕ) (off n j : ℕ)
    (hj : j < n) :
    (searchKNN target_feature.data_ (source_feature.data_.getD
        (rand (off + j) % source.points_.length) []) = none →
      (sampleFeatureCorres source source_feature target_feature rand off
        n).getD j (0, 0) =
        (rand (off + j) % source.points_.length, 0)) ∧
    (∀ (i : ℕ) (d : ℝ), searchKNN target_feature.data_
        (source_feature.data_.getD
          (rand (off + j) % source.points_.length) []) = some (i, d) →
      (sampleFeatureCorres source source_feature target_feature rand off
        n).getD j (0, 0) =
        (rand (off + j) % source.points_.length, i)) := by
  have hget : (sampleFeatureCorres source source_feature target_feature rand
      off n).getD j (0, 0) =
      (let s := rand (off + j) % source.points_.length
       match searchKNN target_feature.data_
           (source_feature.data_.getD s []) with
       | none => (s, 0)
       | some (i, _) => (s, i)) := by
    unfold sampleFeatureCorres
    rw [List.getD_eq_getElem?_getD, List.getElem?_map, List.getElem?_range hj]
    rfl
  constructor
  · intro hnone
    rw [hget]
    simp only [hnone]
  · intro i d hsome
    rw [hget]
    simp only [hsome]

/-- Witness for C8: an empty target feature makes every kNN query miss, so
the sampled pair gets target index 0. -/
theorem C8_feature_knn_miss_witness :
    (sampleFeatureCorres ⟨[origin]⟩ ⟨[[(0 : ℝ)]]⟩ ⟨[]⟩ (fun _ => 0) 0
      3).getD 0 (0, 0) = (0 % 1, 0) :=
  (C8_feature_knn_miss ⟨[origin]⟩ ⟨[[(0 : ℝ)]]⟩ ⟨[]⟩ (fun _ => 0) 0 3 0
    (by norm_num)).1 rfl

/-- The doubly-bounded counting loop, started at `itr ≤ min mi mv`, folds
its body over the remaining iteration indices and counts exactly
`min mi mv - itr` iterations. -/
theorem corrRansacLoop_spec {α : Type} (body : ℕ → α → α) (mi mv : ℕ) :
    ∀ (k itr : ℕ) (st : α), min mi mv - itr = k → itr ≤ min mi mv →
      corrRansacLoop body mi mv itr st =
        (List.foldl (fun s j => body j s) st (List.range' itr k), k) := by
  intro k
  induction k with
  | zero =>
    intro itr st hk _
    rw [corrRansacLoop]
    rw [dif_neg (by omega : ¬(itr < mi ∧ itr < mv))]
    simp [List.range']
  | succ k ih =>
    intro itr st hk hle
    have hcond : itr < mi ∧ itr < mv := by omega
    rw [corrRansacLoop]
    rw [dif_pos hcond]
    rw [ih (itr + 1) (body itr st) (by omega) (by omega)]
    rw [List.range'_succ, List.foldl_cons]

/-- C3: when its preconditions hold, correspondence-RANSAC neither aborts
nor stops early: it equals the fold of its sample-fit-score-select body
over exactly `min(max_iteration, max_validation)` iteration indices, and
the loop's iteration counter equals that minimum. -/
theorem C3_corr_ransac_iteration_count (source target : PointCloud)
    (corres : CorrespondenceSet) (maxd : ℝ) (estimation : Estimation)
    (ransac_n : ℕ) (criteria : RANSACConvergenceCriteria) (rand : ℕ → ℕ)
    (h3 : 3 ≤ ransac_n) (hc : ransac_n ≤ corres.length) (hm : 0 < maxd) :
    RegistrationRANSACBasedOnCorrespondence source target corres maxd
      estimation ransac_n criteria rand =
      List.foldl (fun s j => corrRansacBody source target corres maxd
        estimation ransac_n rand j s) RegistrationResult.default
        (List.range (min criteria.max_iteration_
          criteria.max_validation_)) ∧
    (corrRansacLoop (corrRansacBody source target corres maxd estimation
      ransac_n rand) criteria.max_iteration_ criteria.max_validation_ 0
      RegistrationResult.default).2 =
      min criteria.max_iteration_ criteria.max_validation_ := by
  have hspec := corrRansacLoop_spec (corrRansacBody source target corres
    maxd estimation ransac_n rand) criteria.max_iteration_
    criteria.max_validation_
    (min criteria.max_iteration_ criteria.max_validation_) 0
    RegistrationResult.default (by omega) (by omega)
  have hguard : ¬(ransac_n < 3 ∨ corres.length < ransac_n ∨ maxd ≤ 0) := by
    push_neg
    exact ⟨h3, hc, hm⟩
  constructor
  · unfold RegistrationRANSACBasedOnCorrespondence
    rw [if_neg hguard, hspec, List.range_eq_range']
  · rw [hspec]

/-- Witness for C3 at concrete valid arguments. -/
theorem C3_corr_ransac_iteration_count_witness :
    (corrRansacLoop (corrRansacBody ⟨[]⟩ ⟨[]⟩ [(0, 0), (0, 0), (0, 0)] 1
      (fun _ _ _ => 1) 3 (fun _ => 0)) 2 5 0
      RegistrationResult.default).2 = min 2 5 :=
  (C3_corr_ransac_iteration_count ⟨[]⟩ ⟨[]⟩ [(0, 0), (0, 0), (0, 0)] 1
    (fun _ _ _ => 1) 3 ⟨2, 5⟩ (fun _ => 0) (by norm_num) (by decide)
    (by norm_num)).2

/-- C4: the ICP loop executes at most `max_iteration` (the fuel) refinement
steps; its final state is the step function iterated exactly as many times
as the counted steps; no step before the last one satisfied the
convergence test; and if the loop stopped early then the last executed
step satisfied BOTH delta conditions (`ICPConverged` is their
conjunction).  `RegistrationICP` runs this loop with
`criteria.max_iteration_` as fuel whenever `max_dist > 0`. -/
theorem C4_icp_loop_termination (target : PointCloud) (maxd : ℝ)
    (estimation : Estimation) (criteria : ICPConvergenceCriteria) :
    (∀ (fuel : ℕ) (st : ICPState),
      (ICPLoop target maxd estimation criteria fuel st).2 ≤ fuel ∧
      (0 < fuel → 0 < (ICPLoop target maxd estimation criteria fuel st).2) ∧
      (ICPLoop target maxd estimation criteria fuel st).1 =
        (ICPStep target maxd estimation)^[
          (ICPLoop target maxd estimation criteria fuel st).2] st ∧
      (∀ k, k + 1 < (ICPLoop target maxd estimation criteria fuel st).2 →
        ¬ ICPConverged criteria
          ((ICPStep target maxd estimation)^[k] st).result
          ((ICPStep target maxd estimation)^[k + 1] st).result) ∧
      ((ICPLoop target maxd estimation criteria fuel st).2 < fuel →
        ICPConverged criteria
          ((ICPStep target maxd estimation)^[
            (ICPLoop target maxd estimation criteria fuel st).2 - 1]
            st).result
          ((ICPStep target maxd estimation)^[
            (ICPLoop target maxd estimation criteria fuel st).2]
            st).result)) ∧
    (∀ (source : PointCloud) (init : Mat4), ¬ maxd ≤ 0 →
      RegistrationICP source target maxd init estimation criteria =
        (ICPLoop target maxd estimation criteria criteria.max_iteration_
          ⟨init, if init = 1 then source else source.Transform init,
            GetRegistrationResultAndCorrespondences
              (if init = 1 then source else source.Transform init) target
              maxd init⟩).1.result) := by
  constructor
  · intro fuel
    induction fuel with
    | zero =>
      intro st
      refine ⟨le_refl 0, fun h => absurd h (lt_irrefl 0), rfl,
        fun k hk => absurd hk (Nat.not_lt_zero _),
        fun h => absurd h (lt_irrefl 0)⟩
    | succ fuel ih =>
      intro st
      by_cases hcv : ICPConverged criteria st.result
          ((ICPStep target maxd estimation) st).result
      · have heq : ICPLoop target maxd estimation criteria (fuel + 1) st =
            ((ICPStep target maxd estimation) st, 1) := by
          rw [ICPLoop]
          rw [if_pos hcv]
        rw [heq]
        refine ⟨by omega, fun _ => by omega, ?_, fun k hk => absurd hk
          (by omega), fun _ => ?_⟩
        · rw [Function.iterate_one]
        · simpa using hcv
      · obtain ⟨ih1, ih2, ih3, ih4, ih5⟩ :=
          ih ((ICPStep target maxd estimation) st)
        have heq : ICPLoop target maxd estimation criteria (fuel + 1) st =
            ((ICPLoop target maxd estimation criteria fuel
                ((ICPStep target maxd estimation) st)).1,
             (ICPLoop target maxd estimation criteria fuel
                ((ICPStep target maxd estimation) st)).2 + 1) := by
          rw [ICPLoop]
          rw [if_neg hcv]
        rw [heq]
        refine ⟨by omega, fun _ => by omega, ?_, ?_, ?_⟩
        · rw [ih3, Function.iterate_succ_apply]
        · intro k hk
          match k with
          | 0 =>
            simpa using hcv
          | j + 1 =>
            have hj := ih4 j (by omega)
            rw [Function.iterate_succ_apply, Function.iterate_succ_apply]
            exact hj
        · intro hlt
          have hm : 0 < (ICPLoop target maxd estimation criteria fuel
              ((ICPStep target maxd estimation) st)).2 := ih2 (by omega)
          have h5 := ih5 (by omega)
          have hpred : (ICPLoop target maxd estimation criteria fuel
              ((ICPStep target maxd estimation) st)).2 - 1 + 1 =
              (ICPLoop target maxd estimation criteria fuel
                ((ICPStep target maxd estimation) st)).2 := by omega
          rw [← Function.iterate_succ_apply] at h5
          rw [← Function.iterate_succ_apply] at h5
          simp only [Nat.succ_eq_add_one] at h5
          rw [hpred] at h5
          dsimp only
          simp only [Nat.add_sub_cancel]
          exact h5
  · intro source init h
    unfold RegistrationICP
    rw [if_neg h]

/-- Witness for C4 at concrete arguments. -/
theorem C4_icp_loop_termination_witness :
    (ICPLoop ⟨[]⟩ 1 (fun _ _ _ => 1) ⟨0, 0, 1⟩ 1
      ⟨1, ⟨[]⟩, RegistrationResult.default⟩).2 ≤ 1 ∧
    RegistrationICP ⟨[]⟩ ⟨[]⟩ 1 1 (fun _ _ _ => 1) ⟨0, 0, 1⟩ =
      (ICPLoop ⟨[]⟩ 1 (fun _ _ _ => 1) ⟨0, 0, 1⟩
        (ICPConvergenceCriteria.mk 0 0 1).max_iteration_
        ⟨1, if (1 : Mat4) = 1 then (⟨[]⟩ : PointCloud)
              else PointCloud.Transform ⟨[]⟩ 1,
          GetRegistrationResultAndCorrespondences
            (if (1 : Mat4) = 1 then (⟨[]⟩ : PointCloud)
              else PointCloud.Transform ⟨[]⟩ 1) ⟨[]⟩ 1 1⟩).1.result :=
  ⟨((C4_icp_loop_termination ⟨[]⟩ 1 (fun _ _ _ => 1) ⟨0, 0, 1⟩).1 1
      ⟨1, ⟨[]⟩, RegistrationResult.default⟩).1,
    (C4_icp_loop_termination ⟨[]⟩ 1 (fun _ _ _ => 1) ⟨0, 0, 1⟩).2 ⟨[]⟩ 1
      (by norm_num)⟩

end three
